import Mathlib

/-!
Verification of the crawl frontier / visited-set engine of `auto_walkthrough.py`.

The Python source drives a Street View browser session and records visited
panorama nodes in a PostGIS database.  We shallowly embed the parts of the
source that the specification's claims are about:

* the geofence `in_nancy` (exact rational arithmetic in place of floats);
* the database operations `insert_db` (commit + frontier prune) and
  `get_starting_coordinates` (frontier pop), with the two PostGIS tables
  `to_insert` (frontier) and `panoids` (visited) modelled as lists in
  insertion order;
* the body of the `while` loop of `selenium_walkthrough`, as a step function
  over an explicit controller state;
* the URL parser `parse_google_maps_url`, with the three regular expressions
  of the source implemented as executable searches over character lists.

PostGIS distance computations (`ST_Distance`/`ST_DWithin` on geographies,
measured in meters, and the `<->` KNN operator on geometries) are modelled by
two distance-function parameters `dM` and `dG`, so every theorem quantifies
over the metric instead of fixing one approximation of it.
-/

/-- A geographic point: `latitude`/`longitude`, exact rationals in place of
the source's floats. -/
structure GeoPoint where
  lat : ℚ
  lon : ℚ
deriving DecidableEq, Repr

/-- `latcenter_nancy` from the source (`48.693167`, written as a fraction so
that kernel evaluation can reduce it). -/
def latcenter_nancy : ℚ := 48693167 / 1000000

/-- `longcenter_nancy` from the source (`6.185472`). -/
def longcenter_nancy : ℚ := 6185472 / 1000000

/-- The square of `R_nancy`.  The source computes
`R_nancy = np.sqrt((latcenter_nancy-48.667770)**2 + (6.146822-longcenter_nancy)**2)`
and only ever uses `R_nancy**2` (in `in_nancy`); over exact arithmetic
squaring undoes the square root, so we keep the squared radius directly. -/
def R_nancy_sq : ℚ :=
  (latcenter_nancy - 48667770 / 1000000) ^ 2
    + (6146822 / 1000000 - longcenter_nancy) ^ 2

/-- `in_nancy(lat, long)` from the source:
`(long-longcenter_nancy)**2 + (lat-latcenter_nancy)**2 <= R_nancy**2`. -/
def in_nancy (lat long : ℚ) : Bool :=
  decide ((long - longcenter_nancy) ^ 2 + (lat - latcenter_nancy) ^ 2 ≤ R_nancy_sq)

/-- The two PostGIS tables used by the crawl, in insertion order:
`to_insert` (the frontier, rows `(latitude, longitude)`) and `panoids`
(the visited set, rows `(latitude, longitude, pano_id)`; `pano_id` is a
nullable column, hence `Option String`). -/
structure DB where
  to_insert : List GeoPoint
  panoids : List (GeoPoint × Option String)
deriving DecidableEq, Repr

/-- Storage-fault injection for one `insert_db` call: `atInsert` makes the
`INSERT INTO panoids` statement raise (after the first `conn.commit()` of the
function has already made the frontier deletion durable), which the source
catches, rolls back and turns into a `False` return. -/
inductive Fault where
  | none
  | atInsert
deriving DecidableEq, Repr

/-- The row selected by
`SELECT ... FROM to_insert WHERE ST_DWithin(geog, p, 30) ORDER BY geom <-> p LIMIT 1`:
the candidate within radius `r` of `p` under the meter metric `dM` that is
closest to `p` under the ordering metric `dG` (earliest row wins ties). -/
def nearestWithin (dM dG : GeoPoint → GeoPoint → ℚ) (p : GeoPoint) (r : ℚ) :
    List GeoPoint → Option GeoPoint
  | [] => Option.none
  | q :: rest =>
    if dM q p ≤ r then
      match nearestWithin dM dG p r rest with
      | Option.none => some q
      | some b => if dG b p < dG q p then some b else some q
    else nearestWithin dM dG p r rest

/-- The frontier-prune part of `insert_db` (source lines 142–171): find the
nearest `to_insert` row within 30 meters of `p`; if one exists, delete every
row whose `latitude` and `longitude` exactly equal that row's (`DELETE FROM
to_insert WHERE latitude = %s AND longitude = %s`).  Returns the new frontier
and the number of deleted rows. -/
def pruneNear (dM dG : GeoPoint → GeoPoint → ℚ) (l : List GeoPoint)
    (p : GeoPoint) : List GeoPoint × ℕ :=
  match nearestWithin dM dG p 30 l with
  | Option.none => (l, 0)
  | some n =>
    let kept := l.filter fun q => !(decide (q.lat = n.lat) && decide (q.lon = n.lon))
    (kept, l.length - kept.length)

/-- `insert_db(latitude, longitude, pano_id)` from the source: prune the
nearest frontier row within 30 m of the point, `conn.commit()`, then
`INSERT INTO panoids` and `conn.commit()` again, returning `True`.  A
`psycopg2.Error` is caught and turned into `rollback()` plus a `False`
return; with `Fault.atInsert` the insert raises after the prune has already
been committed, so the frontier change persists while no visited row is
added.  There is no query against `panoids` anywhere in the function. -/
def insert_db (dM dG : GeoPoint → GeoPoint → ℚ) (f : Fault) (db : DB)
    (p : GeoPoint) (pid : Option String) : DB × Bool :=
  let fr := (pruneNear dM dG db.to_insert p).1
  match f with
  | Fault.none => (⟨fr, db.panoids ++ [(p, pid)]⟩, true)
  | Fault.atInsert => (⟨fr, db.panoids⟩, false)

/-- `get_starting_coordinates()` from the source:
`SELECT latitude, longitude FROM to_insert LIMIT 1`, returning `(None, None)`
on an empty table.  The block that would `DELETE` the returned row is
commented out in the source, so the database is returned unchanged; the
unordered `LIMIT 1` row is modelled as the earliest-inserted row. -/
def get_starting_coordinates (db : DB) : Option GeoPoint × DB :=
  (db.to_insert.head?, db)

/-- The two arrow keys the walkthrough loop can press (`Keys.ARROW_UP` /
`Keys.ARROW_DOWN`), i.e. the step direction. -/
inductive Key where
  | arrowUp
  | arrowDown
deriving DecidableEq, Repr

/-- The direction flip performed in the failure-threshold branch of the
source: `ARROW_DOWN` becomes `ARROW_UP` and anything else becomes
`ARROW_DOWN`. -/
def flipKey : Key → Key
  | Key.arrowDown => Key.arrowUp
  | Key.arrowUp => Key.arrowDown

/-- The controller working state of the `while` loop of
`selenium_walkthrough`: the local variables `old_lat_long`, `chained_fail`,
`iter`, `keytopress`, `move` and `url` (the URL is carried as the coordinates
it encodes, since `create_streetview_url` only embeds coordinates). -/
structure Ctl where
  old_lat_long : ℚ × ℚ
  chained_fail : ℕ
  iter : ℕ
  keytopress : Key
  move : Bool
  url : Option GeoPoint
deriving DecidableEq, Repr

/-- One iteration's external inputs: the parse of `driver.current_url`
(`plat`, `plon`, `ppano`), the fault injected into the main `insert_db` call,
and — in case the iteration reseeds — the parse of the URL seen inside
`set_url` together with the fault for the `insert_db` call `set_url` makes. -/
structure Obs where
  plat : Option ℚ
  plon : Option ℚ
  ppano : Option String
  fault : Fault
  rlat : Option ℚ
  rlon : Option ℚ
  rpano : Option String
  rfault : Fault
deriving DecidableEq, Repr

/-- Whether the loop keeps running (`continue`) or exits (`break`). -/
inductive StepRes where
  | cont
  | halt
deriving DecidableEq, Repr

/-- Result of one loop iteration: new controller state, new database state,
and whether the loop continues. -/
structure StepOut where
  ctl : Ctl
  db : DB
  res : StepRes
deriving DecidableEq, Repr

/-- The Python tuple comparison `(lat, long) == old_lat_long`.  `old_lat_long`
is always a pair of numbers (`set_url` returns `(0, 0)`), so the comparison
holds exactly when both components parsed and match. -/
def latlonEq (a b : Option ℚ) (old : ℚ × ℚ) : Bool :=
  match a, b with
  | some x, some y => decide (x = old.1) && decide (y = old.2)
  | _, _ => false

/-- `set_url(driver, actions, url)` from the source: navigate, parse the
resulting URL, call `insert_db` on the parse result (when the coordinates are
`None` the SQL statements fail on NULL values, the exception is rolled back
and the database is unchanged; note a missing `pano_id` alone does not stop
the insert, since the column is nullable), and return `(0, 0), 0` — the reset
values for `old_lat_long` and `chained_fail`. -/
def set_url (dM dG : GeoPoint → GeoPoint → ℚ) (db : DB) (o : Obs) :
    DB × ((ℚ × ℚ) × ℕ) :=
  let db2 :=
    match o.rlat, o.rlon with
    | some la, some lo => (insert_db dM dG o.rfault db ⟨la, lo⟩ o.rpano).1
    | _, _ => db
  (db2, ((0, 0), 0))

/-- The reseed URL update in the source:
`coordinates = get_starting_coordinates()` followed by
`if coordinates[0] is not None and coordinates[1] is not None: url = create_streetview_url(*coordinates)`
— a fresh frontier row if one exists, otherwise the previous URL. -/
def reseed_url (c : Ctl) (db : DB) : Option GeoPoint :=
  match (get_starting_coordinates db).1 with
  | some q => some q
  | Option.none => c.url

/-- The body of the `while (True)` loop of `selenium_walkthrough`, branch for
branch.  `move` is set at the top of every iteration; the stall branch
(`(lat,long) == old_lat_long`) reseeds and increments `iter`; a parse failure
(`long==None or lat==None or panoid==None`) breaks out of the loop; leaving
the geofence reseeds without touching `iter`; a failed `insert_db` increments
`chained_fail` and, past the threshold `chained_fail > 2`, reseeds,
increments `iter` and flips `keytopress`; a successful `insert_db` records
the new position, increments `iter` and clears `chained_fail`. -/
def walkthrough_step (dM dG : GeoPoint → GeoPoint → ℚ) (c : Ctl) (db : DB)
    (o : Obs) : StepOut :=
  let c := { c with move := true }
  if latlonEq o.plat o.plon c.old_lat_long then
    let s := set_url dM dG db o
    ⟨{ c with
        url := reseed_url c db, old_lat_long := s.2.1,
        chained_fail := s.2.2, move := false, iter := c.iter + 1 },
      s.1, StepRes.cont⟩
  else
    match o.plat, o.plon, o.ppano with
    | some la, some lo, some pid =>
      if !(in_nancy la lo) then
        let s := set_url dM dG db o
        ⟨{ c with
            url := reseed_url c db, old_lat_long := s.2.1,
            chained_fail := s.2.2, move := false },
          s.1, StepRes.cont⟩
      else
        let r := insert_db dM dG o.fault db ⟨la, lo⟩ (some pid)
        if r.2 then
          ⟨{ c with
              old_lat_long := (la, lo), iter := c.iter + 1,
              chained_fail := 0 }, r.1, StepRes.cont⟩
        else
          let cf := c.chained_fail + 1
          if 2 < cf then
            let s := set_url dM dG r.1 o
            ⟨{ c with
                url := reseed_url c r.1, old_lat_long := s.2.1,
                chained_fail := s.2.2, move := false, iter := c.iter + 1,
                keytopress := flipKey c.keytopress },
              s.1, StepRes.cont⟩
          else
            ⟨{ c with chained_fail := cf }, r.1, StepRes.cont⟩
    | _, _, _ => ⟨c, db, StepRes.halt⟩

/-- Numeric value of a run of decimal digits. -/
def digitsVal (l : List Char) : ℕ :=
  l.foldl (fun n c => 10 * n + (c.toNat - 48)) 0

/-- Match `-?\d+\.\d+` at the head of the input (greedy digit runs, which for
this pattern coincides with the regex engine's backtracking semantics since a
digit can never match `.` or `,`), returning the numeric value and the rest
of the input. -/
def matchNumber (s : List Char) : Option (ℚ × List Char) :=
  let (neg, s1) :=
    match s with
    | '-' :: t => (true, t)
    | _ => (false, s)
  let (d1, s2) := s1.span Char.isDigit
  if d1 = [] then Option.none
  else
    match s2 with
    | '.' :: s3 =>
      let (d2, s4) := s3.span Char.isDigit
      if d2 = [] then Option.none
      else
        let v : ℚ := (digitsVal d1 : ℚ) + (digitsVal d2 : ℚ) / (10 ^ d2.length : ℚ)
        some (if neg then -v else v, s4)
    | _ => Option.none

/-- Match the pattern `/@(-?\d+\.\d+),(-?\d+\.\d+),` anchored at the head of
the input, returning the two captured numbers. -/
def matchLatLonAt (s : List Char) : Option (ℚ × ℚ) :=
  match s with
  | '/' :: '@' :: rest =>
    match matchNumber rest with
    | some (a, ',' :: r2) =>
      match matchNumber r2 with
      | some (b, ',' :: _) => some (a, b)
      | _ => Option.none
    | _ => Option.none
  | _ => Option.none

/-- `re.search(r'/@(-?\d+\.\d+),(-?\d+\.\d+),', url)`: try the anchored match
at every start position, leftmost first. -/
def searchLatLon : List Char → Option (ℚ × ℚ)
  | [] => Option.none
  | ch :: rest =>
    match matchLatLonAt (ch :: rest) with
    | some r => some r
    | Option.none => searchLatLon rest

/-- A character matched by the class `[^%&]`. -/
def notPctAmp (c : Char) : Bool :=
  !(decide (c = '%')) && !(decide (c = '&'))

/-- Match `panoid%3D([^%&]+)` anchored at the head of the input. -/
def matchPanoidAt (s : List Char) : Option String :=
  match s with
  | 'p' :: 'a' :: 'n' :: 'o' :: 'i' :: 'd' :: '%' :: '3' :: 'D' :: rest =>
    let g := (rest.span notPctAmp).1
    if g = [] then Option.none else some (String.mk g)
  | _ => Option.none

/-- `re.search(r'panoid%3D([^%&]+)', url)`. -/
def searchPanoid : List Char → Option String
  | [] => Option.none
  | ch :: rest =>
    match matchPanoidAt (ch :: rest) with
    | some r => some r
    | Option.none => searchPanoid rest

/-- A character matched by the class `[^!]`. -/
def notBang (c : Char) : Bool :=
  !(decide (c = '!'))

/-- Match `!3m5!1s([^!]+)!` anchored at the head of the input: the greedy
class run must be non-empty and followed by `!` (shorter runs always end at a
non-`!` character, so no backtracking case is lost). -/
def match3m5At (s : List Char) : Option String :=
  match s with
  | '!' :: '3' :: 'm' :: '5' :: '!' :: '1' :: 's' :: rest =>
    match rest.span notBang with
    | (g, '!' :: _) => if g = [] then Option.none else some (String.mk g)
    | _ => Option.none
  | _ => Option.none

/-- `re.search(r'!3m5!1s([^!]+)!', url)`. -/
def search3m5 : List Char → Option String
  | [] => Option.none
  | ch :: rest =>
    match match3m5At (ch :: rest) with
    | some r => some r
    | Option.none => search3m5 rest

/-- `parse_google_maps_url(url)` from the source: search for the
latitude/longitude pattern first — if it is absent, return
`(None, None, None)`; otherwise search for the `panoid%3D` parameter, then
for the `!3m5!1s` section, and return `(latitude, longitude, None)` when
both pano searches fail.  `float()` on a `-?\d+\.\d+` match never raises, so
the `except` branch of the source is unreachable on string inputs. -/
def parse_google_maps_url (url : String) : Option ℚ × Option ℚ × Option String :=
  match searchLatLon url.data with
  | Option.none => (Option.none, Option.none, Option.none)
  | some (la, lo) =>
    match searchPanoid url.data with
    | some pid => (some la, some lo, some pid)
    | Option.none =>
      match search3m5 url.data with
      | some pid => (some la, some lo, some pid)
      | Option.none => (some la, some lo, Option.none)

/-- A concrete stand-in for the PostGIS metrics in witnesses and
counterexamples (the theorems quantify over the metrics; only the concrete
instances use this): squared planar distance over the coordinates. -/
def mdist (a b : GeoPoint) : ℚ :=
  (a.lat - b.lat) ^ 2 + (a.lon - b.lon) ^ 2

theorem set_url_snd (dM dG : GeoPoint → GeoPoint → ℚ) (db : DB) (o : Obs) :
    (set_url dM dG db o).2 = ((0, 0), 0) := rfl

theorem insert_db_snd (dM dG : GeoPoint → GeoPoint → ℚ) (f : Fault) (db : DB)
    (p : GeoPoint) (pid : Option String) :
    (insert_db dM dG f db p pid).2 = decide (f = Fault.none) := by
  cases f <;> rfl

theorem step_stall (dM dG : GeoPoint → GeoPoint → ℚ) (c : Ctl) (db : DB)
    (o : Obs) (h : latlonEq o.plat o.plon c.old_lat_long = true) :
    walkthrough_step dM dG c db o =
      ⟨{ c with
          url := reseed_url c db, old_lat_long := (0, 0), chained_fail := 0,
          move := false, iter := c.iter + 1 },
        (set_url dM dG db o).1, StepRes.cont⟩ := by
  simp [walkthrough_step, reseed_url, set_url, h]

theorem step_parse_fail (dM dG : GeoPoint → GeoPoint → ℚ) (c : Ctl) (db : DB)
    (o : Obs) (hne : latlonEq o.plat o.plon c.old_lat_long = false)
    (h : o.plat = Option.none ∨ o.plon = Option.none ∨ o.ppano = Option.none) :
    walkthrough_step dM dG c db o =
      ⟨{ c with move := true }, db, StepRes.halt⟩ := by
  rcases ha : o.plat with _ | la <;> rcases hb : o.plon with _ | lo <;>
    rcases hc : o.ppano with _ | pid <;>
    simp_all [walkthrough_step]

theorem step_oob (dM dG : GeoPoint → GeoPoint → ℚ) (c : Ctl) (db : DB)
    (o : Obs) (la lo : ℚ) (pid : String)
    (hla : o.plat = some la) (hlo : o.plon = some lo) (hp : o.ppano = some pid)
    (hne : latlonEq o.plat o.plon c.old_lat_long = false)
    (hout : in_nancy la lo = false) :
    walkthrough_step dM dG c db o =
      ⟨{ c with
          url := reseed_url c db, old_lat_long := (0, 0), chained_fail := 0,
          move := false },
        (set_url dM dG db o).1, StepRes.cont⟩ := by
  simp only [hla, hlo] at hne
  simp [walkthrough_step, reseed_url, set_url, hla, hlo, hp, hne, hout]

theorem step_commit_ok (dM dG : GeoPoint → GeoPoint → ℚ) (c : Ctl) (db : DB)
    (o : Obs) (la lo : ℚ) (pid : String)
    (hla : o.plat = some la) (hlo : o.plon = some lo) (hp : o.ppano = some pid)
    (hne : latlonEq o.plat o.plon c.old_lat_long = false)
    (hin : in_nancy la lo = true) (hf : o.fault = Fault.none) :
    walkthrough_step dM dG c db o =
      ⟨{ c with
          old_lat_long := (la, lo), iter := c.iter + 1, chained_fail := 0,
          move := true },
        (insert_db dM dG o.fault db ⟨la, lo⟩ (some pid)).1, StepRes.cont⟩ := by
  simp only [hla, hlo] at hne
  simp [walkthrough_step, hla, hlo, hp, hne, hin, hf, insert_db]

theorem step_reject_small (dM dG : GeoPoint → GeoPoint → ℚ) (c : Ctl)
    (db : DB) (o : Obs) (la lo : ℚ) (pid : String)
    (hla : o.plat = some la) (hlo : o.plon = some lo) (hp : o.ppano = some pid)
    (hne : latlonEq o.plat o.plon c.old_lat_long = false)
    (hin : in_nancy la lo = true) (hf : o.fault = Fault.atInsert)
    (hsmall : c.chained_fail + 1 ≤ 2) :
    walkthrough_step dM dG c db o =
      ⟨{ c with chained_fail := c.chained_fail + 1, move := true },
        (insert_db dM dG o.fault db ⟨la, lo⟩ (some pid)).1, StepRes.cont⟩ := by
  simp only [hla, hlo] at hne
  simp [walkthrough_step, hla, hlo, hp, hne, hin, hf, insert_db,
    Nat.not_lt.mpr hsmall]

theorem step_reject_big (dM dG : GeoPoint → GeoPoint → ℚ) (c : Ctl)
    (db : DB) (o : Obs) (la lo : ℚ) (pid : String)
    (hla : o.plat = some la) (hlo : o.plon = some lo) (hp : o.ppano = some pid)
    (hne : latlonEq o.plat o.plon c.old_lat_long = false)
    (hin : in_nancy la lo = true) (hf : o.fault = Fault.atInsert)
    (hbig : 2 < c.chained_fail + 1) :
    walkthrough_step dM dG c db o =
      ⟨{ c with
          url := reseed_url c (insert_db dM dG o.fault db ⟨la, lo⟩ (some pid)).1,
          old_lat_long := (0, 0), chained_fail := 0, move := false,
          iter := c.iter + 1, keytopress := flipKey c.keytopress },
        (set_url dM dG (insert_db dM dG o.fault db ⟨la, lo⟩ (some pid)).1 o).1,
        StepRes.cont⟩ := by
  simp only [hla, hlo] at hne
  simp [walkthrough_step, hla, hlo, hp, hne, hin, hf, insert_db, reseed_url,
    set_url, hbig]

/-- Empty database. -/
def dbE : DB := ⟨[], []⟩

/-- A controller state whose previous position is `(1, 1)`. -/
def cStall : Ctl := ⟨(1, 1), 0, 0, Key.arrowUp, true, some ⟨9, 9⟩⟩

/-- A fresh controller state (as after `set_url`). -/
def cW : Ctl := ⟨(0, 0), 0, 0, Key.arrowUp, true, Option.none⟩

/-- A controller state already carrying two chained failures. -/
def cBig : Ctl := ⟨(0, 0), 2, 0, Key.arrowUp, true, Option.none⟩

/-- An observation repeating the previous position `(1, 1)` of `cStall`. -/
def oStallEx : Obs :=
  ⟨some 1, some 1, some "x", Fault.none,
    Option.none, Option.none, Option.none, Fault.none⟩

/-- An observation far outside the Nancy geofence. -/
def oOOBEx : Obs :=
  ⟨some 99, some 99, some "x", Fault.none,
    Option.none, Option.none, Option.none, Fault.none⟩

/-- An observation inside the geofence whose `insert_db` call fails. -/
def oRejEx : Obs :=
  ⟨some (4869 / 100), some (618 / 100), some "p", Fault.atInsert,
    Option.none, Option.none, Option.none, Fault.none⟩

/-- C1, counterexample.  Two `Commit` calls at the very same point (distance
zero, hence within any dedup radius): the second one is accepted (`True`) and
a second visited row is stored, instead of being rejected as already
visited — `insert_db` never queries the `panoids` table. -/
theorem insert_db_second_commit_accepted :
    (insert_db mdist mdist Fault.none
        (insert_db mdist mdist Fault.none dbE ⟨4869 / 100, 618 / 100⟩ (some "a")).1
        ⟨4869 / 100, 618 / 100⟩ (some "b")).2 = true ∧
    (insert_db mdist mdist Fault.none
        (insert_db mdist mdist Fault.none dbE ⟨4869 / 100, 618 / 100⟩ (some "a")).1
        ⟨4869 / 100, 618 / 100⟩ (some "b")).1.panoids =
      [(⟨4869 / 100, 618 / 100⟩, some "a"), (⟨4869 / 100, 618 / 100⟩, some "b")] ∧
    mdist ⟨4869 / 100, 618 / 100⟩ ⟨4869 / 100, 618 / 100⟩ = 0 := by
  norm_num [insert_db, pruneNear, nearestWithin, mdist, dbE]

/-- C1, amended.  `insert_db` performs no deduplication at all: whatever the
current visited set, a fault-free commit is always accepted and always
appends a new visited row, even at a position already represented. -/
theorem insert_db_always_accepts (dM dG : GeoPoint → GeoPoint → ℚ) (db : DB)
    (p : GeoPoint) (pid : Option String) :
    (insert_db dM dG Fault.none db p pid).2 = true ∧
    (insert_db dM dG Fault.none db p pid).1.panoids = db.panoids ++ [(p, pid)] :=
  ⟨rfl, rfl⟩

/-- C2, counterexample.  A commit whose `INSERT INTO panoids` fails with a
storage error: the call returns `False` and no visited row is stored, yet the
frontier candidate at the committed position has been deleted — the prune was
committed in its own earlier transaction, so a state change persists. -/
theorem insert_db_fault_counterexample :
    (insert_db mdist mdist Fault.atInsert ⟨[⟨4869 / 100, 618 / 100⟩], []⟩
        ⟨4869 / 100, 618 / 100⟩ (some "a")).2 = false ∧
    (insert_db mdist mdist Fault.atInsert ⟨[⟨4869 / 100, 618 / 100⟩], []⟩
        ⟨4869 / 100, 618 / 100⟩ (some "a")).1.to_insert = [] ∧
    (insert_db mdist mdist Fault.atInsert ⟨[⟨4869 / 100, 618 / 100⟩], []⟩
        ⟨4869 / 100, 618 / 100⟩ (some "a")).1.panoids = [] := by
  norm_num [insert_db, pruneNear, nearestWithin, mdist]

/-- C2, amended.  `insert_db` is two transactions, not one: the frontier
prune is committed before the visited insert is attempted, so it applies
regardless of whether the insert is accepted, and on an insert-stage storage
error the prune persists while no visited row is added and `False` is
returned. -/
theorem insert_db_fault_keeps_prune (dM dG : GeoPoint → GeoPoint → ℚ)
    (db : DB) (p : GeoPoint) (pid : Option String) :
    (insert_db dM dG Fault.atInsert db p pid).1.to_insert =
      (insert_db dM dG Fault.none db p pid).1.to_insert ∧
    (insert_db dM dG Fault.atInsert db p pid).1.panoids = db.panoids ∧
    (insert_db dM dG Fault.atInsert db p pid).2 = false :=
  ⟨rfl, rfl, rfl⟩

theorem filter_length_lt {α : Type} (p : α → Bool) (l : List α) (x : α)
    (hx : x ∈ l) (hpx : p x = false) :
    (l.filter p).length < l.length := by
  induction l with
  | nil => cases hx
  | cons a t ih =>
    rcases List.mem_cons.1 hx with rfl | hxt
    · have := List.length_filter_le p t
      simp [List.filter, hpx]
      omega
    · cases ha : p a <;> simp [List.filter, ha] <;> have := ih hxt <;> omega

theorem nearestWithin_some (dM dG : GeoPoint → GeoPoint → ℚ) (p : GeoPoint)
    (r : ℚ) (l : List GeoPoint) (n : GeoPoint)
    (h : nearestWithin dM dG p r l = some n) : n ∈ l ∧ dM n p ≤ r := by
  induction l with
  | nil => cases h
  | cons q rest ih =>
    rw [nearestWithin] at h
    by_cases hq : dM q p ≤ r
    · rw [if_pos hq] at h
      cases hr : nearestWithin dM dG p r rest with
      | none =>
        rw [hr] at h
        dsimp only at h
        cases h
        exact ⟨List.mem_cons_self _ _, hq⟩
      | some b =>
        rw [hr] at h
        dsimp only at h
        by_cases hd : dG b p < dG q p
        · rw [if_pos hd] at h
          cases h
          obtain ⟨hmem, hdist⟩ := ih hr
          exact ⟨List.mem_cons_of_mem q hmem, hdist⟩
        · rw [if_neg hd] at h
          cases h
          exact ⟨List.mem_cons_self _ _, hq⟩
    · rw [if_neg hq] at h
      obtain ⟨hmem, hdist⟩ := ih h
      exact ⟨List.mem_cons_of_mem q hmem, hdist⟩

theorem nearestWithin_eq_none_iff (dM dG : GeoPoint → GeoPoint → ℚ)
    (p : GeoPoint) (r : ℚ) (l : List GeoPoint) :
    nearestWithin dM dG p r l = Option.none ↔ ∀ q ∈ l, ¬(dM q p ≤ r) := by
  induction l with
  | nil => simp [nearestWithin]
  | cons q rest ih =>
    rw [nearestWithin]
    by_cases hq : dM q p ≤ r
    · rw [if_pos hq]
      apply iff_of_false
      · cases hr : nearestWithin dM dG p r rest with
        | none => simp
        | some b => dsimp only; split <;> simp
      · intro hall
        exact absurd hq (hall q (List.mem_cons_self q rest))
    · rw [if_neg hq, ih]
      constructor
      · intro h q' hq'
        rcases List.mem_cons.1 hq' with rfl | hmem
        · exact hq
        · exact h q' hmem
      · intro h q' hq'
        exact h q' (List.mem_cons_of_mem q hq')

/-- C3, counterexample.  Two frontier candidates, both within the prune
radius of `p` (`mdist` distances 1 and 4, both `≤ 30`): the first prune
deletes only the nearest one (`removedCount = 1`; the second candidate
survives although it is within the radius), and the repeated identical call
deletes the second candidate and returns `removedCount = 1` again instead of
`0`. -/
theorem pruneNear_not_complete :
    mdist ⟨0, 2⟩ ⟨0, 0⟩ ≤ 30 ∧
    pruneNear mdist mdist [⟨0, 1⟩, ⟨0, 2⟩] ⟨0, 0⟩ = ([⟨0, 2⟩], 1) ∧
    pruneNear mdist mdist [⟨0, 2⟩] ⟨0, 0⟩ = ([], 1) := by
  norm_num [pruneNear, nearestWithin, mdist, List.filter]

/-- C3, amended.  The prune deletes only the rows sharing the exact
coordinates of the single nearest candidate within 30 m, so it is neither
complete over the radius nor idempotent while several candidates remain in
range; what holds is: the removed count is `0` exactly when no candidate at
all lies within 30 m of the point (under any metric `dM`). -/
theorem pruneNear_count_zero_iff (dM dG : GeoPoint → GeoPoint → ℚ)
    (l : List GeoPoint) (p : GeoPoint) :
    (pruneNear dM dG l p).2 = 0 ↔ ∀ q ∈ l, ¬(dM q p ≤ 30) := by
  cases h : nearestWithin dM dG p 30 l with
  | none =>
    have hpr : pruneNear dM dG l p = (l, 0) := by rw [pruneNear, h]
    rw [hpr]
    exact iff_of_true rfl ((nearestWithin_eq_none_iff dM dG p 30 l).1 h)
  | some n =>
    have hpr : (pruneNear dM dG l p).2 =
        l.length - (l.filter fun q =>
          !(decide (q.lat = n.lat) && decide (q.lon = n.lon))).length := by
      rw [pruneNear, h]
    obtain ⟨hmem, hdist⟩ := nearestWithin_some dM dG p 30 l n h
    have hlt : (l.filter fun q =>
        !(decide (q.lat = n.lat) && decide (q.lon = n.lon))).length < l.length := by
      apply filter_length_lt _ _ n hmem
      simp
    rw [hpr]
    apply iff_of_false
    · omega
    · intro hall
      exact absurd hdist (hall n hmem)

/-- C4, counterexample.  Popping from a one-candidate frontier returns that
candidate but leaves it in the store: the `DELETE` of the used row is
commented out in the source, so `PopOne` does not remove what it returns. -/
theorem get_starting_coordinates_counterexample :
    (get_starting_coordinates ⟨[⟨1, 2⟩], []⟩).1 = some ⟨1, 2⟩ ∧
    (get_starting_coordinates ⟨[⟨1, 2⟩], []⟩).2.to_insert = [⟨1, 2⟩] :=
  ⟨rfl, rfl⟩

/-- C4, amended.  `get_starting_coordinates` reads the first frontier row
without removing it (the store is returned unchanged), and returns `None`
exactly when the frontier is empty. -/
theorem get_starting_coordinates_no_removal (db : DB) :
    (get_starting_coordinates db).2 = db ∧
    ((get_starting_coordinates db).1 = Option.none ↔ db.to_insert = []) :=
  ⟨rfl, by simp [get_starting_coordinates]⟩

/-- C5, counterexample.  A stall reseed (the parsed position `(1, 1)` equals
`old_lat_long`) and an out-of-bounds reseed (position `(99, 99)` fails the
geofence) both leave `keytopress` at `ARROW_UP` instead of flipping it to
`ARROW_DOWN`; the new frontier candidate taken as URL shows a reseed did
happen. -/
theorem stall_oob_no_flip :
    (walkthrough_step mdist mdist cStall ⟨[⟨2, 2⟩], []⟩ oStallEx).ctl.keytopress
      = Key.arrowUp ∧
    (walkthrough_step mdist mdist cStall ⟨[⟨2, 2⟩], []⟩ oStallEx).ctl.url
      = some ⟨2, 2⟩ ∧
    (walkthrough_step mdist mdist cStall ⟨[⟨2, 2⟩], []⟩ oOOBEx).ctl.keytopress
      = Key.arrowUp ∧
    flipKey Key.arrowUp = Key.arrowDown := by
  refine ⟨?_, ?_, ?_, rfl⟩
  · rw [step_stall mdist mdist cStall ⟨[⟨2, 2⟩], []⟩ oStallEx
      (by norm_num [latlonEq, cStall, oStallEx])]
    rfl
  · rw [step_stall mdist mdist cStall ⟨[⟨2, 2⟩], []⟩ oStallEx
      (by norm_num [latlonEq, cStall, oStallEx])]
    rfl
  · rw [step_oob mdist mdist cStall ⟨[⟨2, 2⟩], []⟩ oOOBEx 99 99 "x" rfl rfl rfl
      (by norm_num [latlonEq, cStall, oOOBEx])
      (by norm_num [in_nancy, latcenter_nancy, longcenter_nancy, R_nancy_sq])]
    rfl

/-- C5, amended.  The step direction is flipped only by the
failure-threshold reseed (`chained_fail` exceeding 2 after a rejected
commit); the stall reseed and the out-of-bounds reseed leave `keytopress`
unchanged. -/
theorem flip_only_on_threshold (dM dG : GeoPoint → GeoPoint → ℚ) (c : Ctl)
    (db : DB) (o : Obs) :
    (latlonEq o.plat o.plon c.old_lat_long = true →
      (walkthrough_step dM dG c db o).ctl.keytopress = c.keytopress) ∧
    (∀ la lo pid, o.plat = some la → o.plon = some lo → o.ppano = some pid →
      latlonEq o.plat o.plon c.old_lat_long = false → in_nancy la lo = false →
      (walkthrough_step dM dG c db o).ctl.keytopress = c.keytopress) ∧
    (∀ la lo pid, o.plat = some la → o.plon = some lo → o.ppano = some pid →
      latlonEq o.plat o.plon c.old_lat_long = false → in_nancy la lo = true →
      o.fault = Fault.atInsert → 2 < c.chained_fail + 1 →
      (walkthrough_step dM dG c db o).ctl.keytopress = flipKey c.keytopress) := by
  refine ⟨?_, ?_, ?_⟩
  · intro h
    rw [step_stall dM dG c db o h]
  · intro la lo pid hla hlo hp hne hout
    rw [step_oob dM dG c db o la lo pid hla hlo hp hne hout]
  · intro la lo pid hla hlo hp hne hin hf hbig
    rw [step_reject_big dM dG c db o la lo pid hla hlo hp hne hin hf hbig]

theorem flip_only_on_threshold_witness :
    (walkthrough_step mdist mdist cStall dbE oStallEx).ctl.keytopress
      = cStall.keytopress ∧
    (walkthrough_step mdist mdist cW dbE oOOBEx).ctl.keytopress
      = cW.keytopress ∧
    (walkthrough_step mdist mdist cBig dbE oRejEx).ctl.keytopress
      = flipKey cBig.keytopress :=
  ⟨(flip_only_on_threshold mdist mdist cStall dbE oStallEx).1
      (by norm_num [latlonEq, cStall, oStallEx]),
   (flip_only_on_threshold mdist mdist cW dbE oOOBEx).2.1 99 99 "x" rfl rfl rfl
      (by norm_num [latlonEq, cW, oOOBEx])
      (by norm_num [in_nancy, latcenter_nancy, longcenter_nancy, R_nancy_sq]),
   (flip_only_on_threshold mdist mdist cBig dbE oRejEx).2.2
      (4869 / 100) (618 / 100) "p" rfl rfl rfl
      (by norm_num [latlonEq, cBig, oRejEx])
      (by norm_num [in_nancy, latcenter_nancy, longcenter_nancy, R_nancy_sq])
      rfl (by norm_num [cBig])⟩

/-- C6.  Failure-threshold recovery: starting from `chained_fail = 0`, three
consecutive rejected commits of the same (new) position leave the controller
retrying in place for the first two iterations (counter 1 then 2, no reseed:
`old_lat_long`, `url` and the direction key are untouched and the loop
continues), and on the third rejection (`chained_fail` exceeding 2) it
reseeds — counter reset by `set_url`, position reset to `(0, 0)`, `move`
cleared, `iter` incremented — and flips `keytopress`. -/
theorem threshold_recovery (dM dG : GeoPoint → GeoPoint → ℚ) (c : Ctl)
    (db : DB) (o : Obs) (la lo : ℚ) (pid : String)
    (hla : o.plat = some la) (hlo : o.plon = some lo) (hp : o.ppano = some pid)
    (hne : latlonEq o.plat o.plon c.old_lat_long = false)
    (hin : in_nancy la lo = true) (hf : o.fault = Fault.atInsert)
    (h0 : c.chained_fail = 0) (s1 s2 s3 : StepOut)
    (hs1 : s1 = walkthrough_step dM dG c db o)
    (hs2 : s2 = walkthrough_step dM dG s1.ctl s1.db o)
    (hs3 : s3 = walkthrough_step dM dG s2.ctl s2.db o) :
    s1.ctl.chained_fail = 1 ∧ s1.ctl.keytopress = c.keytopress ∧
    s1.ctl.old_lat_long = c.old_lat_long ∧ s1.ctl.url = c.url ∧
    s1.ctl.iter = c.iter ∧ s1.res = StepRes.cont ∧
    s2.ctl.chained_fail = 2 ∧ s2.ctl.keytopress = c.keytopress ∧
    s2.ctl.old_lat_long = c.old_lat_long ∧ s2.ctl.url = c.url ∧
    s2.ctl.iter = c.iter ∧ s2.res = StepRes.cont ∧
    s3.ctl.chained_fail = 0 ∧ s3.ctl.keytopress = flipKey c.keytopress ∧
    s3.ctl.old_lat_long = (0, 0) ∧ s3.ctl.move = false ∧
    s3.ctl.iter = c.iter + 1 ∧ s3.res = StepRes.cont := by
  have hne1 : latlonEq o.plat o.plon
      ({ c with chained_fail := c.chained_fail + 1, move := true } : Ctl).old_lat_long
        = false := hne
  have hne2 : latlonEq o.plat o.plon
      ({ c with chained_fail := c.chained_fail + 2, move := true } : Ctl).old_lat_long
        = false := hne
  have e1 : s1 = ⟨{ c with chained_fail := c.chained_fail + 1, move := true },
      (insert_db dM dG o.fault db ⟨la, lo⟩ (some pid)).1, StepRes.cont⟩ :=
    hs1.trans
      (step_reject_small dM dG c db o la lo pid hla hlo hp hne hin hf (by omega))
  have e2 : s2 = ⟨{ c with chained_fail := c.chained_fail + 2, move := true },
      (insert_db dM dG o.fault
        (insert_db dM dG o.fault db ⟨la, lo⟩ (some pid)).1
        ⟨la, lo⟩ (some pid)).1, StepRes.cont⟩ :=
    hs2.trans (by
      rw [e1]
      exact step_reject_small dM dG _ _ o la lo pid hla hlo hp hne1 hin hf
        (by dsimp only; omega))
  rw [e2] at hs3
  dsimp only at hs3
  rw [step_reject_big dM dG
      { c with chained_fail := c.chained_fail + 2, move := true }
      (insert_db dM dG o.fault
        (insert_db dM dG o.fault db ⟨la, lo⟩ (some pid)).1
        ⟨la, lo⟩ (some pid)).1
      o la lo pid hla hlo hp hne2 hin hf (by dsimp only; omega)] at hs3
  rw [e1, e2, hs3]
  simp [h0]

/-- First iteration of the concrete three-rejection run. -/
def w1 : StepOut := walkthrough_step mdist mdist cW dbE oRejEx

/-- Second iteration of the concrete three-rejection run. -/
def w2 : StepOut := walkthrough_step mdist mdist w1.ctl w1.db oRejEx

/-- Third iteration of the concrete three-rejection run. -/
def w3 : StepOut := walkthrough_step mdist mdist w2.ctl w2.db oRejEx

theorem threshold_recovery_witness :
    w1.ctl.chained_fail = 1 ∧ w1.ctl.keytopress = cW.keytopress ∧
    w1.ctl.old_lat_long = cW.old_lat_long ∧ w1.ctl.url = cW.url ∧
    w1.ctl.iter = cW.iter ∧ w1.res = StepRes.cont ∧
    w2.ctl.chained_fail = 2 ∧ w2.ctl.keytopress = cW.keytopress ∧
    w2.ctl.old_lat_long = cW.old_lat_long ∧ w2.ctl.url = cW.url ∧
    w2.ctl.iter = cW.iter ∧ w2.res = StepRes.cont ∧
    w3.ctl.chained_fail = 0 ∧ w3.ctl.keytopress = flipKey cW.keytopress ∧
    w3.ctl.old_lat_long = (0, 0) ∧ w3.ctl.move = false ∧
    w3.ctl.iter = cW.iter + 1 ∧ w3.res = StepRes.cont :=
  threshold_recovery mdist mdist cW dbE oRejEx (4869 / 100) (618 / 100) "p"
    rfl rfl rfl
    (by norm_num [latlonEq, cW, oRejEx])
    (by norm_num [in_nancy, latcenter_nancy, longcenter_nancy, R_nancy_sq])
    rfl rfl w1 w2 w3 rfl rfl rfl

/-- C7, counterexample.  A stall reseed with an exhausted frontier:
`get_starting_coordinates` returns `None`, yet the loop result is `continue`
(not a terminal break) and the controller simply keeps its previous URL — the
session goes on stepping instead of ending. -/
theorem empty_frontier_not_terminal :
    (get_starting_coordinates dbE).1 = Option.none ∧
    (walkthrough_step mdist mdist cStall dbE oStallEx).res = StepRes.cont ∧
    (walkthrough_step mdist mdist cStall dbE oStallEx).ctl.url = cStall.url := by
  refine ⟨rfl, ?_, ?_⟩ <;>
    (rw [step_stall mdist mdist cStall dbE oStallEx
      (by norm_num [latlonEq, cStall, oStallEx])]; try rfl)

/-- C7, amended.  When the frontier is empty and a stall forces a reseed,
the controller does not reach any terminal state: it keeps the previous URL,
resets `old_lat_long` and `chained_fail` through `set_url`, increments
`iter`, and the loop continues; the loop only ever breaks on a URL-parse
failure. -/
theorem empty_frontier_continues (dM dG : GeoPoint → GeoPoint → ℚ) (c : Ctl)
    (db : DB) (o : Obs) (hemp : db.to_insert = [])
    (h : latlonEq o.plat o.plon c.old_lat_long = true) :
    (walkthrough_step dM dG c db o).res = StepRes.cont ∧
    (walkthrough_step dM dG c db o).ctl.url = c.url ∧
    (walkthrough_step dM dG c db o).ctl.old_lat_long = (0, 0) ∧
    (walkthrough_step dM dG c db o).ctl.chained_fail = 0 ∧
    (walkthrough_step dM dG c db o).ctl.iter = c.iter + 1 := by
  rw [step_stall dM dG c db o h]
  simp [reseed_url, get_starting_coordinates, hemp]

theorem empty_frontier_continues_witness :
    (walkthrough_step mdist mdist cStall dbE oStallEx).res = StepRes.cont ∧
    (walkthrough_step mdist mdist cStall dbE oStallEx).ctl.url = cStall.url ∧
    (walkthrough_step mdist mdist cStall dbE oStallEx).ctl.old_lat_long
      = (0, 0) ∧
    (walkthrough_step mdist mdist cStall dbE oStallEx).ctl.chained_fail = 0 ∧
    (walkthrough_step mdist mdist cStall dbE oStallEx).ctl.iter
      = cStall.iter + 1 :=
  empty_frontier_continues mdist mdist cStall dbE oStallEx rfl
    (by norm_num [latlonEq, cStall, oStallEx])

/-- C8.  Scenario C for the geofence (fractions are the source's decimal
constants: `48.667770 = 48667770/1000000`, etc.): the center is contained;
the reference point `(48.667770, 6.146822)` used to derive the radius lies
exactly on the boundary (its squared-coordinate distance equals the squared
radius) and is contained; the point twice as far from the center along the
same direction, `(48.642373, 6.108172)`, is not contained. -/
theorem in_nancy_scenario_c :
    in_nancy latcenter_nancy longcenter_nancy = true ∧
    in_nancy (48667770 / 1000000) (6146822 / 1000000) = true ∧
    (6146822 / 1000000 - longcenter_nancy) ^ 2
        + (48667770 / 1000000 - latcenter_nancy) ^ 2 = R_nancy_sq ∧
    (48642373 / 1000000 : ℚ)
        = latcenter_nancy - 2 * (latcenter_nancy - 48667770 / 1000000) ∧
    (6108172 / 1000000 : ℚ)
        = longcenter_nancy - 2 * (longcenter_nancy - 6146822 / 1000000) ∧
    in_nancy (48642373 / 1000000) (6108172 / 1000000) = false := by
  norm_num [in_nancy, latcenter_nancy, longcenter_nancy, R_nancy_sq]

/-- C9, counterexample.  An out-of-bounds reseed and an `AlreadyVisited`
retry (first rejection, counter below the threshold) both leave `iter`
unchanged, so not every transition increments the iteration counter. -/
theorem iter_not_always_incremented :
    (walkthrough_step mdist mdist cStall dbE oOOBEx).ctl.iter = cStall.iter ∧
    (walkthrough_step mdist mdist cW dbE oRejEx).ctl.iter = cW.iter := by
  constructor
  · rw [step_oob mdist mdist cStall dbE oOOBEx 99 99 "x" rfl rfl rfl
      (by norm_num [latlonEq, cStall, oOOBEx])
      (by norm_num [in_nancy, latcenter_nancy, longcenter_nancy, R_nancy_sq])]
  · rw [step_reject_small mdist mdist cW dbE oRejEx (4869 / 100) (618 / 100)
      "p" rfl rfl rfl
      (by norm_num [latlonEq, cW, oRejEx])
      (by norm_num [in_nancy, latcenter_nancy, longcenter_nancy, R_nancy_sq])
      rfl (by norm_num [cW])]

/-- C9, amended.  `iter` never decreases and grows by at most one per loop
iteration; it is incremented by the stall reseed, the failure-threshold
reseed and a successful commit, but an out-of-bounds reseed (third conjunct)
— like an `AlreadyVisited` retry below the threshold — leaves it unchanged. -/
theorem iter_monotone (dM dG : GeoPoint → GeoPoint → ℚ) (c : Ctl) (db : DB)
    (o : Obs) :
    c.iter ≤ (walkthrough_step dM dG c db o).ctl.iter ∧
    (walkthrough_step dM dG c db o).ctl.iter ≤ c.iter + 1 ∧
    ∀ la lo pid, o.plat = some la → o.plon = some lo → o.ppano = some pid →
      latlonEq o.plat o.plon c.old_lat_long = false → in_nancy la lo = false →
      (walkthrough_step dM dG c db o).ctl.iter = c.iter := by
  have hcases : (walkthrough_step dM dG c db o).ctl.iter = c.iter ∨
      (walkthrough_step dM dG c db o).ctl.iter = c.iter + 1 := by
    cases hb : latlonEq o.plat o.plon c.old_lat_long with
    | true =>
      right
      rw [step_stall dM dG c db o hb]
    | false =>
      cases hla : o.plat with
      | none =>
        left
        rw [step_parse_fail dM dG c db o hb (Or.inl hla)]
      | some la =>
        cases hlo : o.plon with
        | none =>
          left
          rw [step_parse_fail dM dG c db o hb (Or.inr (Or.inl hlo))]
        | some lo =>
          cases hp : o.ppano with
          | none =>
            left
            rw [step_parse_fail dM dG c db o hb (Or.inr (Or.inr hp))]
          | some pid =>
            cases hin : in_nancy la lo with
            | false =>
              left
              rw [step_oob dM dG c db o la lo pid hla hlo hp hb hin]
            | true =>
              cases hf : o.fault with
              | none =>
                right
                rw [step_commit_ok dM dG c db o la lo pid hla hlo hp hb hin hf]
              | atInsert =>
                by_cases hbig : 2 < c.chained_fail + 1
                · right
                  rw [step_reject_big dM dG c db o la lo pid hla hlo hp hb hin
                    hf hbig]
                · left
                  rw [step_reject_small dM dG c db o la lo pid hla hlo hp hb
                    hin hf (by omega)]
  refine ⟨?_, ?_, ?_⟩
  · rcases hcases with h | h <;> omega
  · rcases hcases with h | h <;> omega
  · intro la lo pid hla hlo hp hne hout
    rw [step_oob dM dG c db o la lo pid hla hlo hp hne hout]

theorem iter_monotone_witness :
    cStall.iter ≤ (walkthrough_step mdist mdist cStall dbE oOOBEx).ctl.iter ∧
    (walkthrough_step mdist mdist cStall dbE oOOBEx).ctl.iter = cStall.iter :=
  ⟨(iter_monotone mdist mdist cStall dbE oOOBEx).1,
   (iter_monotone mdist mdist cStall dbE oOOBEx).2.2 99 99 "x" rfl rfl rfl
      (by norm_num [latlonEq, cStall, oOOBEx])
      (by norm_num [in_nancy, latcenter_nancy, longcenter_nancy, R_nancy_sq])⟩

/-- C10.  `parse_google_maps_url` is a total function on strings, and its
result has exactly two shapes: when the latitude/longitude pattern is absent
the triple is `(None, None, None)`, and otherwise latitude and longitude are
both present (so a non-`None` pano id can never accompany a `None`
coordinate, and a missing pano id yields `(latitude, longitude, None)`). -/
theorem parse_google_maps_url_shapes (url : String) :
    (searchLatLon url.data = Option.none ∧
      parse_google_maps_url url = (Option.none, Option.none, Option.none)) ∨
    ∃ la lo, (parse_google_maps_url url).1 = some la ∧
      (parse_google_maps_url url).2.1 = some lo := by
  cases h : searchLatLon url.data with
  | none =>
    left
    exact ⟨rfl, by rw [parse_google_maps_url, h]⟩
  | some r =>
    obtain ⟨la, lo⟩ := r
    right
    refine ⟨la, lo, ?_, ?_⟩ <;>
      (rw [parse_google_maps_url, h]
       cases searchPanoid url.data <;> try rfl
       dsimp only
       cases search3m5 url.data <;> rfl)

theorem insert_db_always_accepts_witness :
    (insert_db mdist mdist Fault.none dbE ⟨1, 2⟩ (some "a")).2 = true ∧
    (insert_db mdist mdist Fault.none dbE ⟨1, 2⟩ (some "a")).1.panoids
      = dbE.panoids ++ [(⟨1, 2⟩, some "a")] :=
  insert_db_always_accepts mdist mdist dbE ⟨1, 2⟩ (some "a")

theorem insert_db_fault_keeps_prune_witness :
    (insert_db mdist mdist Fault.atInsert dbE ⟨1, 2⟩ (some "a")).1.to_insert
      = (insert_db mdist mdist Fault.none dbE ⟨1, 2⟩ (some "a")).1.to_insert ∧
    (insert_db mdist mdist Fault.atInsert dbE ⟨1, 2⟩ (some "a")).1.panoids
      = dbE.panoids ∧
    (insert_db mdist mdist Fault.atInsert dbE ⟨1, 2⟩ (some "a")).2 = false :=
  insert_db_fault_keeps_prune mdist mdist dbE ⟨1, 2⟩ (some "a")

theorem pruneNear_count_zero_iff_witness :
    (pruneNear mdist mdist [] ⟨0, 0⟩).2 = 0 ↔
      ∀ q ∈ ([] : List GeoPoint), ¬(mdist q ⟨0, 0⟩ ≤ 30) :=
  pruneNear_count_zero_iff mdist mdist [] ⟨0, 0⟩

theorem get_starting_coordinates_no_removal_witness :
    (get_starting_coordinates dbE).2 = dbE ∧
    ((get_starting_coordinates dbE).1 = Option.none ↔ dbE.to_insert = []) :=
  get_starting_coordinates_no_removal dbE

theorem parse_google_maps_url_shapes_witness :
    (searchLatLon (String.data "nothing here") = Option.none ∧
      parse_google_maps_url "nothing here"
        = (Option.none, Option.none, Option.none)) ∨
    ∃ la lo, (parse_google_maps_url "nothing here").1 = some la ∧
      (parse_google_maps_url "nothing here").2.1 = some lo :=
  parse_google_maps_url_shapes "nothing here"
